import Mathlib

/-!
Verification development for the Portkey chatbot analytics engine
(`chatbot/views.py`, `chatbot/admin.py`, `chatbot/utils.py`,
`chatbot/models.py`).

Modelling conventions:
* Python `datetime` values are epoch seconds (`Int`); `timedelta(days=1)` is
  `86400`, `timedelta(seconds=1)` is `1`.
* Python `float` arithmetic (costs, latencies, averages, `round`) is modelled
  over exact rationals `ℚ`, with `round` as round-half-to-even.
* Django querysets over `ChatLog.objects` are lists of records; `filter` is
  `List.filter`, `values(k).annotate(Count/Sum/Avg)` is group-by over the
  distinct key values, `order_by` is a stable merge sort.
* `NULL` columns (`user`, `error_message`) are `Option` fields.
-/

/-- Python truthiness fallback `a or b` for strings: `""` is falsy. -/
def pyOr (a b : String) : String := if a = "" then b else a

/-- The ASCII whitespace characters removed by Python's `str.strip()`. -/
def isSpaceChar (c : Char) : Bool :=
  c = ' ' || c = '\t' || c = '\n' || c = '\r' || c = '\x0b' || c = '\x0c'

/-- Python `str.strip()`: drop leading and trailing whitespace. -/
def pyStrip (s : String) : String :=
  String.mk (((s.toList.dropWhile isSpaceChar).reverse.dropWhile isSpaceChar).reverse)

/-- Floor of a rational as an integer, computed from its reduced fraction. -/
def ratFloor (x : ℚ) : ℤ := x.num / x.den

/-- Python `round` to an integer: round half to even (banker's rounding). -/
def roundHalfEven (x : ℚ) : ℤ :=
  let f := ratFloor x
  let r := x - (f : ℚ)
  if r < 1 / 2 then f
  else if 1 / 2 < r then f + 1
  else if f % 2 = 0 then f else f + 1

/-- Python `round(x, nd)` for `nd` decimal places, over exact rationals. -/
def roundTo (nd : Nat) (x : ℚ) : ℚ :=
  (roundHalfEven (x * (10 : ℚ) ^ nd) : ℚ) / (10 : ℚ) ^ nd

/-- Django `Sum`/`Avg` aggregate result: `none` on an empty queryset.
This is `Sum(field)` (the SQL result is `NULL` on no rows). -/
def listSum? (l : List ℚ) : Option ℚ :=
  if l.isEmpty then none else some l.sum

/-- Django `Avg(field)` aggregate result: `none` on an empty queryset. -/
def listAvg? (l : List ℚ) : Option ℚ :=
  if l.isEmpty then none else some (l.sum / l.length)

/-- Mean of a list of rationals; on `[]` this is `0 / 0 = 0`.
Used inside per-group annotations, whose groups are never empty. -/
def listAvg (l : List ℚ) : ℚ := l.sum / l.length

/- ## Calendar dates (`datetime.strptime(s, "%Y-%m-%d")` and epoch arithmetic) -/

/-- A parsed calendar date (proleptic Gregorian), as produced by
`datetime.strptime(s, "%Y-%m-%d")`. -/
structure Date where
  year : Nat
  month : Nat
  day : Nat
deriving DecidableEq

/-- Gregorian leap-year test. -/
def isLeap (y : Nat) : Bool := y % 4 = 0 && (y % 100 != 0 || y % 400 = 0)

/-- Number of days in a month of a given year. -/
def daysInMonth (y m : Nat) : Nat :=
  if m = 2 then (if isLeap y then 29 else 28)
  else if m = 4 || m = 6 || m = 9 || m = 11 then 30
  else 31

/-- Split a character list on the dash separator (for `%Y-%m-%d` parsing). -/
def splitDashes : List Char → List (List Char)
  | [] => [[]]
  | c :: rest =>
    let r := splitDashes rest
    if c = '-' then [] :: r
    else
      match r with
      | g :: gs => (c :: g) :: gs
      | [] => [[c]]

/-- Is every character an ASCII digit? -/
def allDigits (cs : List Char) : Bool := cs.all fun c => '0' ≤ c && c ≤ '9'

/-- Decimal value of a digit string. -/
def digitsToNat (cs : List Char) : Nat :=
  cs.foldl (fun a c => a * 10 + (c.toNat - 48)) 0

/-- The `%d` field of `strptime`: 1–2 digits, or — as in CPython's day
pattern `3[01]|[12]\\d|0[1-9]|[1-9]| [1-9]` — a space followed by a non-zero
digit. -/
def parseDayField (ds : List Char) : Option Nat :=
  if 1 ≤ ds.length && ds.length ≤ 2 && allDigits ds then some (digitsToNat ds)
  else
    match ds with
    | [' ', c] => if '1' ≤ c && c ≤ '9' then some (c.toNat - 48) else none
    | _ => none

/-- Model of `datetime.strptime(s, "%Y-%m-%d")` for ASCII inputs: `%Y` is
exactly 4 digits (and the year at least 1, as `datetime` requires), `%m` is
1–2 digits with value 1..12, `%d` is 1–2 digits or a space followed by a
non-zero digit, and must be a valid day of the month; anything else raises
`ValueError`, modelled as `none`. On non-ASCII input CPython additionally
accepts any Unicode decimal digits (`\\d` and `int()` both do); that lies
outside this model. -/
def parseDate (s : String) : Option Date :=
  match splitDashes s.toList with
  | [ys, ms, ds] =>
    if ys.length = 4 && allDigits ys
        && 1 ≤ ms.length && ms.length ≤ 2 && allDigits ms then
      match parseDayField ds with
      | some d =>
        let y := digitsToNat ys
        let m := digitsToNat ms
        if 1 ≤ y && 1 ≤ m && m ≤ 12 && 1 ≤ d && d ≤ daysInMonth y m then
          some ⟨y, m, d⟩
        else none
      | none => none
    else none
  | _ => none

/-- Is every character 7-bit ASCII? Scopes the date-parsing model: on ASCII
strings the model agrees with CPython exactly. -/
def isAsciiOnly (s : String) : Bool := s.toList.all (fun c => c.toNat < 128)

/-- Days from 1970-01-01 to the given civil date (valid for year ≥ 1),
following the standard era/year-of-era decomposition. -/
def civilToDays (y m d : Nat) : Int :=
  let yy := if m ≤ 2 then y - 1 else y
  let era := yy / 400
  let yoe := yy % 400
  let mp := (m + 9) % 12
  let doy := (153 * mp + 2) / 5 + d - 1
  let doe := yoe * 365 + yoe / 4 - yoe / 100 + doy
  ((era * 146097 + doe : Nat) : Int) - 719468

/-- Epoch second of `D 00:00:00` — the value `datetime.strptime(s, "%Y-%m-%d")`
denotes. -/
def startOfDay (D : Date) : Int := civilToDays D.year D.month D.day * 86400

/-- Inverse of the day count: civil date of a day index counted from
0000-03-01 (used only to render `strftime("%Y-%m-%d")` labels). -/
def civilFromDaysN (n : Nat) : Nat × Nat × Nat :=
  let era := n / 146097
  let doe := n % 146097
  let yoe := (doe - doe / 1460 + doe / 36524 - doe / 146096) / 365
  let y := yoe + era * 400
  let doy := doe - (365 * yoe + yoe / 4 - yoe / 100)
  let mp := (5 * doy + 2) / 153
  let d := doy - (153 * mp + 2) / 5 + 1
  let m := if mp < 10 then mp + 3 else mp - 9
  (if m ≤ 2 then y + 1 else y, m, d)

/-- Left-pad a number with zeros to a fixed width. -/
def padNum (w n : Nat) : String :=
  let s := toString n
  String.mk (List.replicate (w - s.length) '0') ++ s

/-- `strftime("%Y-%m-%d")` of a day index relative to the epoch
(valid for dates of year ≥ 1). -/
def formatDay (z : Int) : String :=
  let t := civilFromDaysN (z + 719468).toNat
  padNum 4 t.1 ++ "-" ++ padNum 2 t.2.1 ++ "-" ++ padNum 2 t.2.2

/- ## Data model (`chatbot/models.py`, class `ChatLog`) -/

/-- One row of the `ChatLog` table. `user` is the username of the foreign-key
user, `none` when the column is `NULL`; `timestamp` is epoch seconds. -/
structure ChatLog where
  user : Option String
  model_name : String
  provider : String
  user_query : String
  response_text : String
  tokens_used : Nat
  cost : ℚ
  latency : ℚ
  status : String
  error_message : Option String
  timestamp : Int
deriving DecidableEq

/- ## `chatbot/utils.py` -/

/-- The static model-to-provider map `MODEL_PROVIDERS`. -/
def MODEL_PROVIDERS : List (String × String) :=
  [("@first-integrati-600395/gemini-2.5-pro", "google"),
   ("gpt-4", "openai"),
   ("gpt-3.5-turbo", "openai"),
   ("claude-3-opus-20240229", "anthropic")]

/-- `get_provider(model_id)`: `MODEL_PROVIDERS.get(model_id, "openai")`. -/
def get_provider (model_id : String) : String :=
  match MODEL_PROVIDERS.lookup model_id with
  | some p => p
  | none => "openai"

/- ## `chatbot/views.py`: cost and chat logging -/

/-- `calculate_cost(tokens)`: `round((tokens / 1000) * 0.002, 6)`. -/
def calculate_cost (tokens : Nat) : ℚ :=
  let rate_per_1k : ℚ := 0.002
  roundTo 6 ((tokens : ℚ) / 1000 * rate_per_1k)

/-- The inputs of `chat_view` relevant to logging: request method, the raw
`query` POST field, the selected model, and the authenticated username
(`none` for anonymous). -/
structure ChatRequest where
  method_post : Bool
  query : String
  model : String
  user : Option String
deriving DecidableEq

/-- Outcome of the provider call in `chat_view`: either a response (content
extracted from the choices, total tokens, measured latency in ms) or a raised
exception with its string rendering. -/
inductive ProviderResult where
  | ok (content : Option String) (total_tokens : Nat) (latency_ms : ℚ)
  | exn (msg : String)
deriving DecidableEq

/-- Placeholder response text when the provider returned no content. -/
def noContentText : String := "⚠️ The AI did not return any content."

/-- The `ChatLog.objects.create(...)` call of `chat_view` (lines 83–94),
with the local variables as left by the try/except block. -/
def mkChatLog (req : ChatRequest) (res : ProviderResult) (ts : Int) : ChatLog :=
  match res with
  | .ok content tokens latency =>
    let response_text :=
      match content with
      | some t => if t = "" then noContentText else t
      | none => noContentText
    { user := req.user
      model_name := pyOr req.model (pyOr req.model "unknown")
      provider := pyOr (get_provider req.model) (pyOr (get_provider req.model) "unknown")
      user_query := pyStrip req.query
      response_text := response_text
      tokens_used := tokens
      cost := calculate_cost tokens
      latency := latency
      status := "success"
      error_message := none
      timestamp := ts }
  | .exn msg =>
    { user := req.user
      model_name := pyOr req.model "unknown"
      provider := pyOr (get_provider req.model) (pyOr (get_provider req.model) "unknown")
      user_query := pyStrip req.query
      response_text := "Error: " ++ msg
      tokens_used := 0
      cost := calculate_cost 0
      latency := 0
      status := "error"
      error_message := some msg
      timestamp := ts }

/-- Effect of `chat_view` on the record store: on POST with a non-blank
stripped query, one record is appended; otherwise the store is untouched. -/
def chat_view (store : List ChatLog) (req : ChatRequest) (res : ProviderResult)
    (ts : Int) : List ChatLog :=
  if req.method_post then
    let user_query := pyStrip req.query
    if user_query ≠ "" then store ++ [mkChatLog req res ts]
    else store
  else store

/- ## `chatbot/views.py`: `analytics_view` -/

/-- Validation failure of the date filters (`ValueError` from `strptime`). -/
inductive FilterError where
  | invalidDateFormat
deriving DecidableEq

/-- The end-date filter of `analytics_view` (lines 119–121):
`timestamp <= start-of-end_date + 1 day - 1 second`. Python's
`if end_date:` treats an empty string like an absent parameter. -/
def applyEndDateFilter (qs : List ChatLog) (end_date : Option String) :
    Except FilterError (List ChatLog) :=
  match end_date with
  | some s =>
    if s ≠ "" then
      match parseDate s with
      | some D =>
        Except.ok (qs.filter (fun r => decide (r.timestamp ≤ startOfDay D + 86400 - 1)))
      | none => Except.error FilterError.invalidDateFormat
    else Except.ok qs
  | none => Except.ok qs

/-- Filter resolution of `analytics_view` (lines 107–121), sequentially:
username filter, then the start-date filter (whose parse failure raises
before the end date is even considered), then the end-date filter. -/
def analyticsQueryset (store : List ChatLog)
    (user_filter start_date end_date : Option String) :
    Except FilterError (List ChatLog) :=
  let qs := store
  let qs :=
    match user_filter with
    | some u => if u ≠ "" then qs.filter (fun r => decide (r.user = some u)) else qs
    | none => qs
  match start_date with
  | some s =>
    if s ≠ "" then
      match parseDate s with
      | some D =>
        applyEndDateFilter (qs.filter (fun r => decide (startOfDay D ≤ r.timestamp)))
          end_date
      | none => Except.error FilterError.invalidDateFormat
    else applyEndDateFilter qs end_date
  | none => applyEndDateFilter qs end_date

/-- Distinct values of a grouping key over a queryset, in first-occurrence
order (the Django `values(k)` group keys). -/
def groupKeys {κ : Type} [DecidableEq κ] (key : ChatLog → κ) (rs : List ChatLog) :
    List κ :=
  (rs.map key).dedup

/-- `errors` metric (line 129): rows where `error_message` is not `NULL`. -/
def errorsCount (qs : List ChatLog) : Nat :=
  (qs.filter (fun r => decide (r.error_message ≠ none))).length

/-- `user_usage` (lines 132–136): per-username request count and summed cost,
ordered by request count descending. -/
def user_usage (qs : List ChatLog) : List (Option String × Nat × ℚ) :=
  ((groupKeys (·.user) qs).map (fun k =>
      let g := qs.filter (fun r => decide (r.user = k))
      (k, g.length, (g.map (·.cost)).sum))).mergeSort
    (fun a b => decide (b.2.1 ≤ a.2.1))

/-- `model_usage` (lines 139–143): requests per model, descending. -/
def model_usage (qs : List ChatLog) : List (String × Nat) :=
  ((groupKeys (·.model_name) qs).map (fun k =>
      (k, (qs.filter (fun r => decide (r.model_name = k))).length))).mergeSort
    (fun a b => decide (b.2 ≤ a.2))

/-- `provider_usage` (lines 146–150): requests per provider, descending. -/
def provider_usage (qs : List ChatLog) : List (String × Nat) :=
  ((groupKeys (·.provider) qs).map (fun k =>
      (k, (qs.filter (fun r => decide (r.provider = k))).length))).mergeSort
    (fun a b => decide (b.2 ≤ a.2))

/-- `error_usage` (lines 153–158): errored requests per provider, descending. -/
def error_usage (qs : List ChatLog) : List (String × Nat) :=
  let es := qs.filter (fun r => decide (r.error_message ≠ none))
  ((groupKeys (·.provider) es).map (fun k =>
      (k, (es.filter (fun r => decide (r.provider = k))).length))).mergeSort
    (fun a b => decide (b.2 ≤ a.2))

/-- `error_types` (lines 161–166): errored requests per distinct
`error_message` string, descending. -/
def error_types (qs : List ChatLog) : List (Option String × Nat) :=
  let es := qs.filter (fun r => decide (r.error_message ≠ none))
  ((groupKeys (·.error_message) es).map (fun k =>
      (k, (es.filter (fun r => decide (r.error_message = k))).length))).mergeSort
    (fun a b => decide (b.2 ≤ a.2))

/-- `TruncHour("timestamp")`: epoch second of the start of the hour. -/
def hourOf (ts : Int) : Int := ts / 3600 * 3600

/-- `feedback_trend` (lines 169–174): hourly mean latency, chronological. -/
def feedback_trend (qs : List ChatLog) : List (Int × ℚ) :=
  ((groupKeys (fun r => hourOf r.timestamp) qs).map (fun h =>
      (h, listAvg ((qs.filter (fun r => decide (hourOf r.timestamp = h))).map
        (·.latency))))).mergeSort
    (fun a b => decide (a.1 ≤ b.1))

/-- One hourly bucket of the `time_series` annotation (lines 177–189).
`unique_users` is `Count("user_id", distinct=True)`, whose SQL semantics
skips `NULL` user ids. -/
structure TimeBucket where
  hour : Int
  requests : Nat
  errors : Nat
  tokens : Nat
  cost : ℚ
  latency : ℚ
  unique_users : Nat
deriving DecidableEq

/-- `time_series` (lines 177–189): hourly buckets, chronological. -/
def time_series (qs : List ChatLog) : List TimeBucket :=
  ((groupKeys (fun r => hourOf r.timestamp) qs).map (fun h =>
      let g := qs.filter (fun r => decide (hourOf r.timestamp = h))
      { hour := h
        requests := g.length
        errors := (g.filter (fun r => decide (r.error_message ≠ none))).length
        tokens := (g.map (·.tokens_used)).sum
        cost := (g.map (·.cost)).sum
        latency := listAvg (g.map (·.latency))
        unique_users := ((g.filterMap (·.user)).dedup).length })).mergeSort
    (fun a b => decide (a.hour ≤ b.hour))

/-- `all_users` (line 192): distinct usernames over the whole store, ordered
by username ascending (`NULL` first). -/
def allUsersOf (store : List ChatLog) : List (Option String) :=
  ((store.map (·.user)).dedup).mergeSort (fun a b =>
    match a, b with
    | none, _ => true
    | some _, none => false
    | some x, some y => decide (x ≤ y))

/-- Django `Sum` over a list of `Nat` values: `none` on an empty queryset. -/
def natSum? (l : List Nat) : Option Nat :=
  if l.isEmpty then none else some l.sum

/-- The analytics payload assembled in `analytics_view`'s `context`
(lines 194–217), minus the echoed raw filter values. -/
structure AnalyticsContext where
  all_users : List (Option String)
  total_cost : ℚ
  total_tokens : Nat
  total_requests : Nat
  unique_users : Nat
  avg_latency : ℚ
  errors : Nat
  user_usage : List (Option String × Nat × ℚ)
  model_usage : List (String × Nat)
  provider_usage : List (String × Nat)
  error_usage : List (String × Nat)
  error_types : List (Option String × Nat)
  feedback_trend : List (Int × ℚ)
  time_series : List TimeBucket
deriving DecidableEq

/-- The aggregation of `analytics_view` (lines 124–217) over the filtered
queryset `qs`; `store` is the full table, used only for `all_users`. -/
def computeContext (store qs : List ChatLog) : AnalyticsContext where
  all_users := allUsersOf store
  total_cost := roundTo 4 ((listSum? (qs.map (·.cost))).getD 0)
  total_tokens := (natSum? (qs.map (·.tokens_used))).getD 0
  total_requests := qs.length
  unique_users := ((qs.map (·.user)).dedup).length
  avg_latency := roundTo 2 ((listAvg? (qs.map (·.latency))).getD 0)
  errors := errorsCount qs
  user_usage := user_usage qs
  model_usage := model_usage qs
  provider_usage := provider_usage qs
  error_usage := error_usage qs
  error_types := error_types qs
  feedback_trend := feedback_trend qs
  time_series := time_series qs

/-- `analytics_view` end to end: resolve the filters, then aggregate. -/
def analytics_view (store : List ChatLog)
    (user_filter start_date end_date : Option String) :
    Except FilterError AnalyticsContext :=
  (analyticsQueryset store user_filter start_date end_date).map
    (computeContext store)

/- ## `chatbot/admin.py`: `ChatLogAdmin.analytics_view` and its cache -/

/-- Admin chart label `r["user__username"] or "anonymous"`. -/
def adminUserLabel : Option String → String
  | none => "anonymous"
  | some s => pyOr s "anonymous"

/-- Requests per day (`TruncDay`), chronological, keyed by epoch day. -/
def dailyCountsOf (qs : List ChatLog) : List (Int × Nat) :=
  ((groupKeys (fun r => r.timestamp / 86400) qs).map (fun d =>
      (d, (qs.filter (fun r => decide (r.timestamp / 86400 = d))).length))).mergeSort
    (fun a b => decide (a.1 ≤ b.1))

/-- Requests per user, descending (before the `[:10]` truncation). -/
def adminUserCounts (qs : List ChatLog) : List (Option String × Nat) :=
  ((groupKeys (·.user) qs).map (fun k =>
      (k, (qs.filter (fun r => decide (r.user = k))).length))).mergeSort
    (fun a b => decide (b.2 ≤ a.2))

/-- The admin analytics payload (`admin.py` lines 36–92), minus the static
`title`/`opts` entries. -/
structure AdminContext where
  total_requests : Nat
  success_count : Nat
  error_count : Nat
  total_tokens : Nat
  avg_tokens : ℚ
  models_labels : List String
  models_counts : List Nat
  providers_labels : List String
  providers_counts : List Nat
  daily_labels : List String
  daily_counts : List Nat
  top_users : List (String × Nat)
deriving DecidableEq

/-- The uncached aggregation of `ChatLogAdmin.analytics_view` over the whole
table (`admin.py` lines 36–92). -/
def computeAdminContext (qs : List ChatLog) : AdminContext :=
  let per_model := model_usage qs
  let per_provider := provider_usage qs
  let daily := dailyCountsOf qs
  let top := (adminUserCounts qs).take 10
  { total_requests := qs.length
    success_count := (qs.filter (fun r => decide (r.status = "success"))).length
    error_count := (qs.filter (fun r => decide (r.status = "error"))).length
    total_tokens := (natSum? (qs.map (·.tokens_used))).getD 0
    avg_tokens := roundTo 2 ((listAvg? (qs.map (fun r => (r.tokens_used : ℚ)))).getD 0)
    models_labels := per_model.map (fun g => pyOr g.1 "unknown")
    models_counts := per_model.map (·.2)
    providers_labels := per_provider.map (fun g => pyOr g.1 "unknown")
    providers_counts := per_provider.map (·.2)
    daily_labels := daily.map (fun g => formatDay g.1)
    daily_counts := daily.map (·.2)
    top_users := top.map (fun g => (adminUserLabel g.1, g.2)) }

/-- The Django cache, restricted to the single key `chatlog_analytics_v1`:
either empty or one value with its absolute expiry time. -/
structure CacheState where
  entry : Option (AdminContext × Int)
deriving DecidableEq

/-- `cache.get(key)` at time `now`: a value is returned while `now` is before
its expiry. -/
def cacheGet (c : CacheState) (now : Int) : Option AdminContext :=
  match c.entry with
  | none => none
  | some (v, expiry) => if now < expiry then some v else none

/-- `cache.set(key, value, ttl)` at time `now`. -/
def cacheSet (v : AdminContext) (now ttl : Int) : CacheState :=
  ⟨some (v, now + ttl)⟩

/-- `ChatLogAdmin.analytics_view` (lines 28–96): serve the cached context if
present, else recompute from the store and cache it for 300 seconds. Returns
the rendered context and the new cache state. -/
def admin_analytics_view (c : CacheState) (store : List ChatLog) (now : Int) :
    AdminContext × CacheState :=
  match cacheGet c now with
  | some ctx => (ctx, c)
  | none =>
    let ctx := computeAdminContext store
    (ctx, cacheSet ctx now 300)

/- ## Concrete fixture records used by the claim witnesses -/

def c2errRec : ChatLog :=
  ⟨none, "gpt-4", "openai", "q", "Error: boom", 0, 0, 0, "error", some "boom", 0⟩

def c2okRec : ChatLog :=
  ⟨some "alice", "gpt-4", "openai", "q", "hi", 10, 0, 3, "success", none, 0⟩

def c6anonRec : ChatLog :=
  ⟨none, "gpt-4", "openai", "q", "ok", 10, 0, 2, "success", none, 100⟩

def c6aliceRec : ChatLog :=
  ⟨some "alice", "gpt-4", "openai", "q", "ok", 10, 0, 2, "success", none, 200⟩

def c1dayBeforeRec : ChatLog :=
  ⟨none, "gpt-4", "openai", "q", "ok", 10, 0, 0, "success", none, 1710460799⟩

def c1midnightRec : ChatLog :=
  ⟨none, "gpt-4", "openai", "q", "ok", 10, 0, 0, "success", none, 1710460800⟩

def c1lastSecondRec : ChatLog :=
  ⟨none, "gpt-4", "openai", "q", "ok", 10, 0, 0, "success", none, 1710547199⟩

def c1dayAfterRec : ChatLog :=
  ⟨none, "gpt-4", "openai", "q", "ok", 10, 0, 0, "success", none, 1710547200⟩

example : parseDate "2024-03-15" = some ⟨2024, 3, 15⟩ := by decide
example : parseDate "2024-3-5" = some ⟨2024, 3, 5⟩ := by decide
example : parseDate "2024-03- 5" = some ⟨2024, 3, 5⟩ := by decide
example : parseDate "999-1-1" = none := by decide
example : parseDate "202-03-15" = none := by decide
example : parseDate "0000-01-01" = none := by decide
example : parseDate "2024-03- 0" = none := by decide
example : parseDate "2024-03-05x" = none := by decide
example : parseDate "" = none := by decide
example : parseDate "2024-02-30" = none := by decide
example : parseDate "2024-13-01" = none := by decide
example : parseDate "abc" = none := by decide
example : civilToDays 1970 1 1 = 0 := by decide
example : civilToDays 2024 3 15 = 19797 := by decide
example : civilToDays 1969 12 31 = -1 := by decide
example : formatDay 19797 = "2024-03-15" := by decide
example : formatDay 0 = "1970-01-01" := by decide
/-- The explicit floor agrees with Mathlib's floor on `ℚ`. -/
theorem ratFloor_eq_floor (x : ℚ) : ratFloor x = ⌊x⌋ := Rat.floor_def.symm

/-- Round-half-even fixes integers. -/
theorem roundHalfEven_intCast (n : ℤ) : roundHalfEven (n : ℚ) = n := by
  simp only [roundHalfEven, ratFloor_eq_floor, Int.floor_intCast]
  norm_num

/-- Rounding a value that is an integer multiple of `10 ^ (-nd)` is exact. -/
theorem roundTo_eq_of_int (nd : Nat) (x : ℚ) (n : ℤ) (h : x * (10 : ℚ) ^ nd = n) :
    roundTo nd x = x := by
  have h10 : ((10 : ℚ) ^ nd) ≠ 0 := by positivity
  rw [roundTo, h, roundHalfEven_intCast, ← h, mul_div_assoc, div_self h10, mul_one]

example : calculate_cost 1000 = 1 / 500 := by
  rw [calculate_cost]
  norm_num
  rw [show ((1 : ℚ) / 500) = ((0.002 : ℚ)) by norm_num]
  rw [roundTo_eq_of_int 6 0.002 2000 (by norm_num)]
example : get_provider "gpt-4" = "openai" := by decide
example : get_provider "zzz" = "openai" := by decide

/- ## General lemmas about the grouping and rounding combinators -/

/-- Each record is counted once across the groups of any grouping key:
the group sizes sum to the queryset size. -/
theorem sum_group_lengths {κ : Type} [DecidableEq κ] (key : ChatLog → κ)
    (qs : List ChatLog) :
    ((groupKeys key qs).map
      (fun k => (qs.filter (fun r => decide (key r = k))).length)).sum = qs.length := by
  have hcount : ∀ k : κ,
      (qs.filter (fun r => decide (key r = k))).length = (qs.map key).count k := by
    intro k
    rw [List.count, List.countP_map, ← List.countP_eq_length_filter]
    congr 1
  calc ((groupKeys key qs).map
        (fun k => (qs.filter (fun r => decide (key r = k))).length)).sum
      = ((qs.map key).dedup.map (fun k => (qs.map key).count k)).sum := by
        unfold groupKeys
        congr 1
        exact List.map_congr_left (fun k _ => hcount k)
    _ = (qs.map key).length := List.sum_map_count_dedup_eq_length _
    _ = qs.length := List.length_map _ _

/-- In a duplicate-free list, filtering for one of its members yields exactly
that singleton. -/
theorem filter_eq_singleton_of_nodup {α : Type} [DecidableEq α] {l : List α}
    {a : α} (hn : l.Nodup) (ha : a ∈ l) :
    l.filter (fun x => decide (x = a)) = [a] := by
  induction l with
  | nil => cases ha
  | cons b l ih =>
    rcases List.nodup_cons.mp hn with ⟨hb, hl⟩
    rcases List.mem_cons.mp ha with h | h
    · subst h
      rw [List.filter_cons_of_pos (by simp)]
      rw [List.filter_eq_nil_iff.mpr (by intro x hx; simp; rintro rfl; exact hb hx)]
    · have hba : b ≠ a := fun e => hb (e ▸ h)
      rw [List.filter_cons_of_neg (by simp [hba])]
      exact ih hl h

/-- Round-half-even of a non-negative rational is non-negative. -/
theorem roundHalfEven_nonneg {x : ℚ} (hx : 0 ≤ x) : 0 ≤ roundHalfEven x := by
  have hf : (0 : ℤ) ≤ ⌊x⌋ := Int.floor_nonneg.mpr hx
  simp only [roundHalfEven, ratFloor_eq_floor]
  split
  · exact hf
  split
  · omega
  split
  · exact hf
  · omega

/-- Fixed-precision rounding of a non-negative rational is non-negative. -/
theorem roundTo_nonneg (nd : Nat) {x : ℚ} (hx : 0 ≤ x) : 0 ≤ roundTo nd x := by
  unfold roundTo
  have h1 : (0 : ℚ) ≤ (roundHalfEven (x * (10 : ℚ) ^ nd) : ℚ) := by
    exact_mod_cast roundHalfEven_nonneg (by positivity)
  positivity

/-- Rounding zero is zero. -/
theorem roundTo_zero (nd : Nat) : roundTo nd 0 = 0 := by
  rw [show ((0 : ℚ)) = ((0 : ℤ) : ℚ) by norm_num] at *
  rw [roundTo_eq_of_int nd _ 0 (by norm_num)]

/-- `get_provider` only returns values of `MODEL_PROVIDERS` or the default,
hence never the empty string. -/
theorem get_provider_ne_empty (m : String) : get_provider m ≠ "" := by
  unfold get_provider MODEL_PROVIDERS
  simp only [List.lookup]
  by_cases h1 : m = "@first-integrati-600395/gemini-2.5-pro" <;>
  by_cases h2 : m = "gpt-4" <;>
  by_cases h3 : m = "gpt-3.5-turbo" <;>
  by_cases h4 : m = "claude-3-opus-20240229" <;>
  simp_all [beq_false_of_ne]

/-- Filtering the image of a duplicate-free key list for one key picks out
exactly the image of that key. -/
theorem map_filter_key_singleton {κ β : Type} [DecidableEq κ]
    (f : κ → β) (getk : β → κ) (hk : ∀ k, getk (f k) = k) (a : κ) :
    ∀ keys : List κ, keys.Nodup → a ∈ keys →
      (keys.map f).filter (fun e => decide (getk e = a)) = [f a]
  | [], _, ha => absurd ha (List.not_mem_nil a)
  | k :: ks, hnd, ha => by
    rcases List.nodup_cons.mp hnd with ⟨hk1, hk2⟩
    rcases List.mem_cons.mp ha with h | h
    · subst h
      rw [List.map_cons, List.filter_cons_of_pos (by simp [hk])]
      congr 1
      apply List.filter_eq_nil_iff.mpr
      intro b hb
      rcases List.mem_map.mp hb with ⟨k2, hk2m, rfl⟩
      simp [hk]
      exact fun e => hk1 (e ▸ hk2m)
    · have hne : k ≠ a := fun e => hk1 (e ▸ h)
      rw [List.map_cons, List.filter_cons_of_neg (by simp [hk, hne])]
      exact map_filter_key_singleton f getk hk a ks hk2 h

/- ## Claim theorems -/

/-- Claim C9: a POST whose query is empty or whitespace-only creates no
record: whatever the provider outcome would have been, `chat_view` leaves the
store completely unchanged. -/
theorem blank_query_leaves_store_unchanged (store : List ChatLog)
    (req : ChatRequest) (res : ProviderResult) (ts : Int)
    (h : pyStrip req.query = "") :
    chat_view store req res ts = store := by
  unfold chat_view
  split
  · simp [h]
  · rfl

theorem blank_query_leaves_store_unchanged_witness :
    pyStrip "  \t " = "" ∧
    chat_view [] ⟨true, "  \t ", "gpt-4", none⟩ (ProviderResult.ok (some "hi") 5 12) 0 = [] :=
  ⟨by decide,
    blank_query_leaves_store_unchanged [] ⟨true, "  \t ", "gpt-4", none⟩
      (ProviderResult.ok (some "hi") 5 12) 0 (by decide)⟩

/-- Claim C10: the provider lookup is total with default `"openai"` — any
model id outside `MODEL_PROVIDERS` maps to `"openai"` — and every record
created by `chat_view` carries a non-empty provider string. -/
theorem provider_lookup_total_with_default :
    (∀ m : String, m ∉ MODEL_PROVIDERS.map Prod.fst → get_provider m = "openai") ∧
    (∀ (req : ChatRequest) (res : ProviderResult) (ts : Int),
      (mkChatLog req res ts).provider ≠ "") := by
  constructor
  · intro m hm
    have h1 : m ≠ "@first-integrati-600395/gemini-2.5-pro" := by
      intro e; exact hm (by rw [e]; decide)
    have h2 : m ≠ "gpt-4" := by intro e; exact hm (by rw [e]; decide)
    have h3 : m ≠ "gpt-3.5-turbo" := by intro e; exact hm (by rw [e]; decide)
    have h4 : m ≠ "claude-3-opus-20240229" := by
      intro e; exact hm (by rw [e]; decide)
    unfold get_provider MODEL_PROVIDERS
    simp only [List.lookup]
    simp [beq_false_of_ne h1, beq_false_of_ne h2,
      beq_false_of_ne h3, beq_false_of_ne h4]
  · intro req res ts
    have hg := get_provider_ne_empty req.model
    cases res <;> simp [mkChatLog, pyOr, hg]

theorem provider_lookup_total_with_default_witness :
    ("mistral-7b" ∉ MODEL_PROVIDERS.map Prod.fst) ∧
    get_provider "mistral-7b" = "openai" :=
  ⟨by decide, provider_lookup_total_with_default.1 "mistral-7b" (by decide)⟩

/-- Claim C8: the recorded cost is the pure function
`round((tokens / 1000) * 0.002, 6)` of the token count: 1000 tokens cost
exactly 0.002, the cost is never negative, and every record created by
`chat_view` stores exactly `calculate_cost` of its stored token count. -/
theorem cost_deterministic_and_nonneg :
    calculate_cost 1000 = 0.002 ∧
    (∀ t : Nat, 0 ≤ calculate_cost t) ∧
    (∀ (req : ChatRequest) (res : ProviderResult) (ts : Int),
      (mkChatLog req res ts).cost = calculate_cost (mkChatLog req res ts).tokens_used) := by
  refine ⟨?_, ?_, ?_⟩
  · show roundTo 6 ((1000 : ℚ) / 1000 * 0.002) = 0.002
    rw [show ((1000 : ℚ) / 1000 * 0.002) = 0.002 by norm_num]
    exact roundTo_eq_of_int 6 _ 2000 (by norm_num)
  · intro t
    exact roundTo_nonneg 6 (by positivity)
  · intro req res ts
    cases res <;> rfl

/-- Claim C2: the reported `errors` metric (rows with a non-null
`error_message`) equals the number of `status = "error"` rows under the
status/error-message invariant, equals the number of non-null-message rows
unconditionally, and record creation maintains the invariant. -/
theorem error_count_triple_equality (qs : List ChatLog)
    (hinv : ∀ r ∈ qs, (r.status = "error" ↔ r.error_message ≠ none)) :
    errorsCount qs = qs.countP (fun r => decide (r.status = "error")) ∧
    errorsCount qs = qs.countP (fun r => decide (r.error_message ≠ none)) ∧
    ∀ (req : ChatRequest) (res : ProviderResult) (ts : Int),
      ((mkChatLog req res ts).status = "error" ↔
        (mkChatLog req res ts).error_message ≠ none) := by
  refine ⟨?_, (List.countP_eq_length_filter _ _).symm, ?_⟩
  · have hsame : qs.filter (fun r => decide (r.error_message ≠ none))
        = qs.filter (fun r => decide (r.status = "error")) := by
      apply List.filter_congr
      intro r hr
      exact decide_eq_decide.mpr (hinv r hr).symm
    unfold errorsCount
    rw [hsame]
    exact (List.countP_eq_length_filter _ _).symm
  · intro req res ts
    cases res <;> simp [mkChatLog]

theorem error_count_triple_equality_witness :
    (∀ r ∈ [c2errRec, c2okRec], (r.status = "error" ↔ r.error_message ≠ none)) ∧
    errorsCount [c2errRec, c2okRec]
      = ([c2errRec, c2okRec]).countP (fun r => decide (r.status = "error")) :=
  ⟨by decide, (error_count_triple_equality [c2errRec, c2okRec] (by decide)).1⟩

/-- Claim C4: on an empty filtered subset the aggregation yields zero for all
scalar metrics (mean latency included — no division by zero or `NaN`) and
empty sequences for every grouped and time-series collection. -/
theorem empty_subset_aggregates_zero (store : List ChatLog) :
    (computeContext store []).total_requests = 0 ∧
    (computeContext store []).total_tokens = 0 ∧
    (computeContext store []).total_cost = 0 ∧
    (computeContext store []).avg_latency = 0 ∧
    (computeContext store []).errors = 0 ∧
    (computeContext store []).user_usage = [] ∧
    (computeContext store []).model_usage = [] ∧
    (computeContext store []).provider_usage = [] ∧
    (computeContext store []).error_usage = [] ∧
    (computeContext store []).error_types = [] ∧
    (computeContext store []).feedback_trend = [] ∧
    (computeContext store []).time_series = [] := by
  refine ⟨rfl, rfl, roundTo_zero 4, roundTo_zero 2, rfl, ?_, ?_, ?_, ?_, ?_, ?_, ?_⟩
  · simp [computeContext, user_usage, groupKeys]
  · simp [computeContext, model_usage, groupKeys]
  · simp [computeContext, provider_usage, groupKeys]
  · simp [computeContext, error_usage, groupKeys]
  · simp [computeContext, error_types, groupKeys]
  · simp [computeContext, feedback_trend, groupKeys]
  · simp [computeContext, time_series, groupKeys]

/-- Claim C3: each of the per-model, per-provider and per-user groupings
partitions the filtered subset — the per-group request counts sum to
`total_requests`. -/
theorem group_counts_partition (store qs : List ChatLog) :
    ((computeContext store qs).model_usage.map (·.2)).sum
        = (computeContext store qs).total_requests ∧
    ((computeContext store qs).provider_usage.map (·.2)).sum
        = (computeContext store qs).total_requests ∧
    ((computeContext store qs).user_usage.map (·.2.1)).sum
        = (computeContext store qs).total_requests := by
  refine ⟨?_, ?_, ?_⟩
  · show ((model_usage qs).map (·.2)).sum = qs.length
    unfold model_usage
    rw [List.Perm.sum_eq (List.Perm.map _ (List.mergeSort_perm _ _)), List.map_map]
    exact sum_group_lengths (·.model_name) qs
  · show ((provider_usage qs).map (·.2)).sum = qs.length
    unfold provider_usage
    rw [List.Perm.sum_eq (List.Perm.map _ (List.mergeSort_perm _ _)), List.map_map]
    exact sum_group_lengths (·.provider) qs
  · show ((user_usage qs).map (·.2.1)).sum = qs.length
    unfold user_usage
    rw [List.Perm.sum_eq (List.Perm.map _ (List.mergeSort_perm _ _)), List.map_map]
    exact sum_group_lengths (·.user) qs

/-- Claim C5: the default admin analytics view is cached under the single
fixed key with a 300-second TTL. A cold request at `t0` computes from the
store and caches until `t0 + 300`; any request before that instant returns
the identical cached payload even if the store has changed (new records are
not reflected); a request at or after expiry recomputes from the current
store and repopulates the cache for another 300 seconds. -/
theorem admin_cache_ttl_behavior (store newStore : List ChatLog) (t0 t1 : Int)
    (c0 : CacheState) (h0 : cacheGet c0 t0 = none) :
    (admin_analytics_view c0 store t0).1 = computeAdminContext store ∧
    (admin_analytics_view c0 store t0).2
      = cacheSet (computeAdminContext store) t0 300 ∧
    (t0 ≤ t1 → t1 < t0 + 300 →
      admin_analytics_view (admin_analytics_view c0 store t0).2 newStore t1
        = (computeAdminContext store, cacheSet (computeAdminContext store) t0 300)) ∧
    (t0 + 300 ≤ t1 →
      admin_analytics_view (admin_analytics_view c0 store t0).2 newStore t1
        = (computeAdminContext newStore,
            cacheSet (computeAdminContext newStore) t1 300)) := by
  have hcold : admin_analytics_view c0 store t0
      = (computeAdminContext store, cacheSet (computeAdminContext store) t0 300) := by
    unfold admin_analytics_view
    rw [h0]
  refine ⟨by rw [hcold], by rw [hcold], ?_, ?_⟩
  · intro _ hlt
    rw [hcold]
    unfold admin_analytics_view
    have : cacheGet (cacheSet (computeAdminContext store) t0 300) t1
        = some (computeAdminContext store) := by
      unfold cacheGet cacheSet
      simp [hlt]
    rw [this]
  · intro hge
    rw [hcold]
    unfold admin_analytics_view
    have : cacheGet (cacheSet (computeAdminContext store) t0 300) t1 = none := by
      unfold cacheGet cacheSet
      simp
      omega
    rw [this]

theorem admin_cache_ttl_behavior_witness :
    cacheGet ⟨none⟩ 0 = none ∧
    ((admin_analytics_view ⟨none⟩ [] 0).1 = computeAdminContext [] ∧
      (admin_analytics_view ⟨none⟩ [] 0).2 = cacheSet (computeAdminContext []) 0 300 ∧
      ((0 : Int) ≤ 120 → (120 : Int) < 0 + 300 →
        admin_analytics_view (admin_analytics_view ⟨none⟩ [] 0).2 [c2okRec] 120
          = (computeAdminContext [], cacheSet (computeAdminContext []) 0 300)) ∧
      ((0 : Int) + 300 ≤ 120 →
        admin_analytics_view (admin_analytics_view ⟨none⟩ [] 0).2 [c2okRec] 120
          = (computeAdminContext [c2okRec],
              cacheSet (computeAdminContext [c2okRec]) 120 300))) :=
  ⟨rfl, admin_cache_ttl_behavior [] [c2okRec] 0 120 ⟨none⟩ rfl⟩

/-- Claim C7 counterexample: an empty-string date filter does not parse as a
date (`strptime` would raise `ValueError` on it), yet filter resolution does
not fail — `if start_date:` treats `""` as absent, so the claim fails at the
supplied value `""`. -/
theorem invalid_date_empty_string_not_rejected :
    parseDate "" = none ∧
    analyticsQueryset [] none (some "") none = Except.ok [] :=
  ⟨by decide, rfl⟩

/-- Claim C7 (amended): for every supplied NON-EMPTY ASCII date string that
does not parse as `YYYY-MM-DD`, filter resolution fails with
`InvalidDateFormat` for every store — in particular no store query result
influences the outcome (the failure precedes aggregation). Empty strings are
treated as absent filters; the ASCII bound scopes the claim to the inputs on
which `parseDate` models CPython exactly (CPython alone also accepts
non-ASCII Unicode digits). -/
theorem invalid_date_fails_before_query
    (store : List ChatLog) (u e : Option String) (s : String)
    (hne : s ≠ "") (_hascii : isAsciiOnly s = true) (hbad : parseDate s = none) :
    analyticsQueryset store u (some s) e
      = Except.error FilterError.invalidDateFormat ∧
    analyticsQueryset store u none (some s)
      = Except.error FilterError.invalidDateFormat ∧
    ∀ ctx, analytics_view store u (some s) e ≠ Except.ok ctx := by
  have h1 : analyticsQueryset store u (some s) e
      = Except.error FilterError.invalidDateFormat := by
    simp [analyticsQueryset, hne, hbad]
  have h2 : analyticsQueryset store u none (some s)
      = Except.error FilterError.invalidDateFormat := by
    simp [analyticsQueryset, applyEndDateFilter, hne, hbad]
  refine ⟨h1, h2, ?_⟩
  intro ctx hctx
  unfold analytics_view at hctx
  rw [h1] at hctx
  exact Except.noConfusion hctx

theorem invalid_date_fails_before_query_witness :
    ("2024-13-45" ≠ "" ∧ isAsciiOnly "2024-13-45" = true
      ∧ parseDate "2024-13-45" = none) ∧
    analyticsQueryset [c2okRec] none (some "2024-13-45") none
      = Except.error FilterError.invalidDateFormat :=
  ⟨⟨by decide, by decide, by decide⟩,
    (invalid_date_fails_before_query [c2okRec] none none "2024-13-45"
      (by decide) (by decide) (by decide)).1⟩

/-- Claim C6: a record with a null user is never dropped by the per-user
grouping and never raises: it is counted under the single sentinel group
whose key is the null username, whose request count is the number of
null-user records (positive), and the admin chart labels that group
`"anonymous"`. -/
theorem null_user_grouped_under_sentinel (qs : List ChatLog) (r : ChatLog)
    (hr : r ∈ qs) (hu : r.user = none) :
    (user_usage qs).filter (fun e => decide (e.1 = none))
      = [((none : Option String),
          (qs.filter (fun x => decide (x.user = none))).length,
          ((qs.filter (fun x => decide (x.user = none))).map (·.cost)).sum)] ∧
    0 < (qs.filter (fun x => decide (x.user = none))).length ∧
    adminUserLabel none = "anonymous" := by
  have hmem : (none : Option String) ∈ groupKeys (·.user) qs := by
    unfold groupKeys
    rw [List.mem_dedup]
    exact List.mem_map.mpr ⟨r, hr, hu⟩
  have hnd : (groupKeys (·.user) qs).Nodup := List.nodup_dedup _
  refine ⟨?_, ?_, rfl⟩
  · unfold user_usage
    apply List.perm_singleton.mp
    have e2 := map_filter_key_singleton
      (fun k => let g := qs.filter (fun x => decide (x.user = k))
                (k, g.length, (g.map (·.cost)).sum))
      (·.1) (fun k => rfl) none (groupKeys (·.user) qs) hnd hmem
    exact e2 ▸ ((List.mergeSort_perm _ _).filter _)
  · exact List.length_pos_of_mem (List.mem_filter.mpr ⟨hr, by simp [hu]⟩)

theorem null_user_grouped_under_sentinel_witness :
    (c6anonRec ∈ [c6aliceRec, c6anonRec] ∧ c6anonRec.user = none) ∧
    ((user_usage [c6aliceRec, c6anonRec]).filter (fun e => decide (e.1 = none))
        = [((none : Option String),
            ([c6aliceRec, c6anonRec].filter (fun x => decide (x.user = none))).length,
            (([c6aliceRec, c6anonRec].filter
                (fun x => decide (x.user = none))).map (·.cost)).sum)] ∧
      0 < ([c6aliceRec, c6anonRec].filter (fun x => decide (x.user = none))).length ∧
      adminUserLabel none = "anonymous") :=
  ⟨⟨by decide, rfl⟩,
    null_user_grouped_under_sentinel [c6aliceRec, c6anonRec] c6anonRec
      (by decide) rfl⟩

/-- Claim C1: with `start_date = end_date = D`, the resolved filter keeps
exactly the records whose timestamp lies on day `D`: the lower bound is the
start of day `D` and the upper bound is the next day's start minus one
second, so an epoch second satisfies the two bounds exactly when its day is
`D` — both midnight and 23:59:59 of `D` pass, and every second of day
`D - 1` or `D + 1` fails. -/
theorem day_filter_selects_exact_day (s : String) (D : Date)
    (hD : parseDate s = some D) (store : List ChatLog) :
    analyticsQueryset store none (some s) (some s)
      = Except.ok (store.filter (fun r =>
          decide (r.timestamp / 86400 = civilToDays D.year D.month D.day))) ∧
    ∀ ts : Int, (startOfDay D ≤ ts ∧ ts ≤ startOfDay D + 86400 - 1) ↔
      ts / 86400 = civilToDays D.year D.month D.day := by
  have hiff : ∀ ts : Int, (startOfDay D ≤ ts ∧ ts ≤ startOfDay D + 86400 - 1) ↔
      ts / 86400 = civilToDays D.year D.month D.day := by
    intro ts
    unfold startOfDay
    omega
  have hs : s ≠ "" := by
    intro he
    rw [he, show parseDate "" = (none : Option Date) from by decide] at hD
    exact Option.noConfusion hD
  refine ⟨?_, hiff⟩
  have hstep : analyticsQueryset store none (some s) (some s)
      = Except.ok ((store.filter (fun r => decide (startOfDay D ≤ r.timestamp))).filter
          (fun r => decide (r.timestamp ≤ startOfDay D + 86400 - 1))) := by
    simp [analyticsQueryset, applyEndDateFilter, hD, hs]
  rw [hstep, List.filter_filter]
  congr 1
  apply List.filter_congr
  intro r _
  rw [← Bool.decide_and]
  exact decide_eq_decide.mpr (and_comm.trans (hiff r.timestamp))

theorem day_filter_selects_exact_day_witness :
    parseDate "2024-03-15" = some ⟨2024, 3, 15⟩ ∧
    analyticsQueryset [c1dayBeforeRec, c1midnightRec, c1lastSecondRec, c1dayAfterRec]
        none (some "2024-03-15") (some "2024-03-15")
      = Except.ok [c1midnightRec, c1lastSecondRec] := by
  refine ⟨by decide, ?_⟩
  rw [(day_filter_selects_exact_day "2024-03-15" ⟨2024, 3, 15⟩ (by decide)
    [c1dayBeforeRec, c1midnightRec, c1lastSecondRec, c1dayAfterRec]).1]
  rfl
